import Mathlib

/-!
Shallow embedding of the Jakarta AQI Dashboard forecast core (src/app.py),
over exact rational arithmetic.  The trained regressor is opaque in the
source (`model.predict`), so it is modelled as an arbitrary function
`predict : Features → ℚ` applied row-wise, exactly as the code applies it
to the six rows of `X_future`.
-/

/-- Scenario parameters from the four sidebar sliders (app.py lines 53-56).
Field names follow the source variable names. -/
structure Scenario where
  ev_switch : ℚ
  emission_reg : ℚ
  green_area : ℚ
  carbon_capture : ℚ
deriving DecidableEq

/-- A six-dimensional pollutant feature vector, in the column order the
source selects (app.py line 71): pm25, pm10, so2, co, o3, no2. -/
structure Features where
  pm25 : ℚ
  pm10 : ℚ
  so2 : ℚ
  co : ℚ
  o3 : ℚ
  no2 : ℚ
deriving DecidableEq

/-- One historical record of the table `cleaned_jakarta_aqi.csv`:
a station identifier and the six pollutant concentrations. -/
structure Reading where
  stasiun : String
  pm25 : ℚ
  pm10 : ℚ
  so2 : ℚ
  co : ℚ
  o3 : ℚ
  no2 : ℚ
deriving DecidableEq

/-- `np.arange(2025, 2031)` (app.py line 62). -/
def future_years : List ℕ := List.range' 2025 6

/-- Scenario multiplier for pm25 (app.py line 77):
`1 - (ev_switch + emission_reg) / 200`. -/
def pm25Mult (s : Scenario) : ℚ := 1 - (s.ev_switch + s.emission_reg) / 200

/-- Scenario multiplier for pm10 (app.py line 78):
`1 - (green_area + emission_reg) / 220`. -/
def pm10Mult (s : Scenario) : ℚ := 1 - (s.green_area + s.emission_reg) / 220

/-- Scenario multiplier for co (app.py line 79):
`1 - (carbon_capture + ev_switch) / 250`. -/
def coMult (s : Scenario) : ℚ := 1 - (s.carbon_capture + s.ev_switch) / 250

/-- Scenario multiplier for no2 (app.py line 80):
`1 - (emission_reg + ev_switch) / 180`. -/
def no2Mult (s : Scenario) : ℚ := 1 - (s.emission_reg + s.ev_switch) / 180

/-- Scenario multiplier for so2 (app.py line 81):
`1 - (carbon_capture + emission_reg) / 230`. -/
def so2Mult (s : Scenario) : ℚ := 1 - (s.carbon_capture + s.emission_reg) / 230

/-- Scenario multiplier for o3 (app.py line 82): `1 - green_area / 200`. -/
def o3Mult (s : Scenario) : ℚ := 1 - s.green_area / 200

/-- The base feature matrix (app.py line 74): the station mean vector
replicated once per future year (`[mean_features.values] * len(future_years)`). -/
def X_base (m : Features) : Fin 6 → Features := fun _ => m

/-- The projected feature matrix `X_future` after the six column-wise
scalings of app.py lines 77-82: each row of the base matrix with every
pollutant column multiplied by its scenario multiplier. -/
def X_future (s : Scenario) (m : Features) : Fin 6 → Features := fun y =>
  { pm25 := (X_base m y).pm25 * pm25Mult s
    pm10 := (X_base m y).pm10 * pm10Mult s
    so2 := (X_base m y).so2 * so2Mult s
    co := (X_base m y).co * coMult s
    o3 := (X_base m y).o3 * o3Mult s
    no2 := (X_base m y).no2 * no2Mult s }

/-- `np.linspace a b n` with endpoint included: element `i` is
`a + i * (b - a) / (n - 1)`. -/
def linspace (a b : ℚ) (n : ℕ) (i : ℕ) : ℚ := a + i * ((b - a) / (n - 1))

/-- The damping factor sequence `np.linspace(1, 0.85, len(base_pred))`
of app.py line 88, with `len(base_pred) = 6`. -/
def dampingFactors (i : Fin 6) : ℚ := linspace 1 0.85 6 i

/-- `base_pred = model.predict(X_future)` (app.py line 85): the opaque
regressor applied to each of the six rows. -/
def base_pred (predict : Features → ℚ) (s : Scenario) (m : Features) :
    Fin 6 → ℚ := fun y => predict (X_future s m y)

/-- `adjusted_pred = base_pred * np.linspace(1, 0.85, len(base_pred))`
(app.py line 88). -/
def adjusted_pred (predict : Features → ℚ) (s : Scenario) (m : Features) :
    Fin 6 → ℚ := fun i => base_pred predict s m i * dampingFactors i

/-- `np.mean` of a list of rationals: sum divided by length. -/
def np_mean (l : List ℚ) : ℚ := l.sum / l.length

/-- Column-wise mean of a list of readings
(`sub[["pm25","pm10","so2","co","o3","no2"]].mean()`, app.py line 71). -/
def meanFeatures (sub : List Reading) : Features :=
  { pm25 := (sub.map Reading.pm25).sum / sub.length
    pm10 := (sub.map Reading.pm10).sum / sub.length
    so2 := (sub.map Reading.so2).sum / sub.length
    co := (sub.map Reading.co).sum / sub.length
    o3 := (sub.map Reading.o3).sum / sub.length
    no2 := (sub.map Reading.no2).sum / sub.length }

/-- The fixed station coordinate registry with the `.get` default
`(-6.2, 106.8)` (app.py lines 35-41 and 90). -/
def station_coords (s : String) : ℚ × ℚ :=
  if s = "DKI1 (Bunderan HI)" then (-6.193, 106.820)
  else if s = "DKI2 (Kelapa Gading)" then (-6.166, 106.909)
  else if s = "DKI3 (Jagakarsa)" then (-6.338, 106.823)
  else if s = "DKI4 (Lubang Buaya)" then (-6.293, 106.894)
  else if s = "DKI5 (Kebon Jeruk)" then (-6.200, 106.770)
  else (-6.2, 106.8)

/-- One element of `results` (app.py lines 91-97). -/
structure StationResult where
  stasiun : String
  latitude : ℚ
  longitude : ℚ
  avg_aqi : ℚ
  predictions : List ℚ
deriving DecidableEq

/-- The record appended to `results` for one station (app.py lines 90-97):
coordinates from the registry, the six damped predictions, and their
`np.mean` as `avg_aqi`. -/
def mkResult (predict : Features → ℚ) (s : Scenario) (station : String)
    (sub : List Reading) : StationResult :=
  { stasiun := station
    latitude := (station_coords station).1
    longitude := (station_coords station).2
    avg_aqi := np_mean (List.ofFn (adjusted_pred predict s (meanFeatures sub)))
    predictions := List.ofFn (adjusted_pred predict s (meanFeatures sub)) }

/-- `df[df["stasiun"] == station]` (app.py line 66). -/
def subFor (df : List Reading) (station : String) : List Reading :=
  df.filter (fun r => r.stasiun = station)

/-- First-occurrence de-duplication, as `pandas.Series.unique` returns the
distinct values in order of first appearance; `seen` accumulates values
already emitted. -/
def uniqueAux : List String → List String → List String
  | [], _ => []
  | x :: xs, seen =>
      if x ∈ seen then uniqueAux xs seen else x :: uniqueAux xs (x :: seen)

/-- `df["stasiun"].unique()` applied to a list of values. -/
def unique (l : List String) : List String := uniqueAux l []

/-- The station loop of app.py lines 65-97, restricted to the results it
appends: stations with an empty sub-table are skipped (`continue`), every
other station contributes its `mkResult`. -/
def results (predict : Features → ℚ) (s : Scenario) (df : List Reading) :
    List StationResult :=
  (unique (df.map Reading.stasiun)).filterMap (fun station =>
    if (subFor df station).isEmpty then none
    else some (mkResult predict s station (subFor df station)))

/-- The station loop of app.py lines 65-69, restricted to the warnings it
emits: the stations for which `sub.empty` holds and
`st.warning(f"No data for {station}. Skipping.")` runs. -/
def warnings (df : List Reading) : List String :=
  (unique (df.map Reading.stasiun)).filter (fun station =>
    (subFor df station).isEmpty)

/-- The marker colour chain of app.py line 178:
`"green" if year_aqi < 50 else "orange" if year_aqi < 100 else "red"`. -/
def markerColor (aqi : ℚ) : String :=
  if aqi < 50 then "green" else if aqi < 100 then "orange" else "red"

/-- The risk bands of the spec; the map colours green/orange/red present
LOW/MODERATE/HIGH respectively. -/
inductive RiskBand
  | LOW
  | MODERATE
  | HIGH
deriving DecidableEq

/-- The risk classification realised by app.py line 178, with the colour
literals replaced by the bands they present. -/
def classify (aqi : ℚ) : RiskBand :=
  if aqi < 50 then .LOW else if aqi < 100 then .MODERATE else .HIGH

/-- The worked spec example: scenario
(evAdoption, emissionRegulation, greenArea, carbonCapture) = (30,40,25,20). -/
def exampleScenario : Scenario := ⟨30, 40, 25, 20⟩

/-- The worked spec example: station mean vector [50,40,10,5,20,30]
in the order (pm25, pm10, so2, co, o3, no2). -/
def exampleMeans : Features := ⟨50, 40, 10, 5, 20, 30⟩

/-- A concrete historical reading for station DKI1, used as a one-row table. -/
def exampleReading : Reading := ⟨"DKI1 (Bunderan HI)", 50, 40, 10, 5, 20, 30⟩

/-- A concrete stand-in regressor for witnesses: reads off the pm25 column. -/
def examplePredict (f : Features) : ℚ := f.pm25

/-- Modelled from the spec: the error taxonomy entry `InvalidScenario`.
The source constrains the four parameters only through the slider bounds
(app.py lines 53-56, min 0 and max 100); no explicit rejection path exists
in src, so the error value is modelled from the spec's words. -/
inductive ForecastError
  | invalidScenario
deriving DecidableEq

/-- Modelled from the spec: the bounds check that every scenario parameter
lies in [0,100], the domain the sliders of app.py lines 53-56 declare. -/
def scenarioInBounds (s : Scenario) : Bool :=
  decide (0 ≤ s.ev_switch) && decide (s.ev_switch ≤ 100) &&
  decide (0 ≤ s.emission_reg) && decide (s.emission_reg ≤ 100) &&
  decide (0 ≤ s.green_area) && decide (s.green_area ≤ 100) &&
  decide (0 ≤ s.carbon_capture) && decide (s.carbon_capture ≤ 100)

/-- Modelled from the spec: a forecast run that rejects the whole run with
`InvalidScenario` when any parameter is outside [0,100] and otherwise
produces the per-station results of the source's prediction loop. -/
def runForecast (predict : Features → ℚ) (s : Scenario) (df : List Reading) :
    Except ForecastError (List StationResult) :=
  if scenarioInBounds s then .ok (results predict s df)
  else .error .invalidScenario

-- Theorems ------------------------------------------------------------

theorem future_years_length : future_years.length = 6 := rfl

/-- Membership in `uniqueAux l seen`: exactly the members of `l` not
already seen. -/
theorem mem_uniqueAux (l : List String) :
    ∀ seen x, x ∈ uniqueAux l seen ↔ (x ∈ l ∧ x ∉ seen) := by
  induction l with
  | nil => intro seen x; simp [uniqueAux]
  | cons y ys ih =>
      intro seen x
      by_cases hy : y ∈ seen
      · rw [uniqueAux, if_pos hy, ih]
        constructor
        · rintro ⟨hx, hxs⟩
          exact ⟨List.mem_cons_of_mem _ hx, hxs⟩
        · rintro ⟨hx, hxs⟩
          rcases List.mem_cons.mp hx with h | h
          · exact absurd (h ▸ hy) hxs
          · exact ⟨h, hxs⟩
      · rw [uniqueAux, if_neg hy]
        constructor
        · intro hx
          rcases List.mem_cons.mp hx with h | h
          · exact ⟨h ▸ List.mem_cons_self y ys, h ▸ hy⟩
          · rcases (ih _ x).mp h with ⟨h1, h2⟩
            refine ⟨List.mem_cons_of_mem _ h1, fun hc => h2 ?_⟩
            exact List.mem_cons_of_mem _ hc
        · rintro ⟨hx, hxs⟩
          rcases List.mem_cons.mp hx with h | h
          · exact h ▸ List.mem_cons_self y (uniqueAux ys (y :: seen))
          · by_cases hxy : x = y
            · exact hxy ▸ List.mem_cons_self y (uniqueAux ys (y :: seen))
            · refine List.mem_cons_of_mem _ ((ih _ x).mpr ⟨h, ?_⟩)
              intro hc
              rcases List.mem_cons.mp hc with h2 | h2
              · exact hxy h2
              · exact hxs h2

/-- Membership in `unique`. -/
theorem mem_unique (l : List String) (x : String) :
    x ∈ unique l ↔ x ∈ l := by
  rw [unique, mem_uniqueAux]
  simp

/-- Closed form of the damping sequence: element `i` of
`np.linspace(1, 0.85, 6)` is `1 - 3/100 * i`. -/
theorem dampingFactors_closed_form (i : Fin 6) :
    dampingFactors i = 1 - 3 / 100 * ((i : ℕ) : ℚ) := by
  fin_cases i <;> norm_num [dampingFactors, linspace]

/-- The damping sequence is non-increasing. -/
theorem dampingFactors_antitone : Antitone dampingFactors := by
  intro a b hab
  rw [dampingFactors_closed_form, dampingFactors_closed_form]
  have h : (a : ℕ) ≤ (b : ℕ) := hab
  have h' : ((a : ℕ) : ℚ) ≤ ((b : ℕ) : ℚ) := by exact_mod_cast h
  linarith

/-- C1: the Feature Projector scales each pollutant dimension of the mean
vector by the fixed per-pollutant multiplier — pm25 by
`1 - (ev + reg)/200`, pm10 by `1 - (green + reg)/220`, co by
`1 - (capture + ev)/250`, no2 by `1 - (reg + ev)/180`, so2 by
`1 - (capture + reg)/230`, o3 by `1 - green/200` — and on the worked
example (mean `[50,40,10,5,20,30]`, scenario `(30,40,25,20)`) the pm25
multiplier is `0.65` and projected pm25 is `32.5` in every one of the six
years. -/
theorem C1_feature_projection :
    (∀ (s : Scenario) (m : Features) (y : Fin 6),
      (X_future s m y).pm25 = m.pm25 * (1 - (s.ev_switch + s.emission_reg) / 200) ∧
      (X_future s m y).pm10 = m.pm10 * (1 - (s.green_area + s.emission_reg) / 220) ∧
      (X_future s m y).co = m.co * (1 - (s.carbon_capture + s.ev_switch) / 250) ∧
      (X_future s m y).no2 = m.no2 * (1 - (s.emission_reg + s.ev_switch) / 180) ∧
      (X_future s m y).so2 = m.so2 * (1 - (s.carbon_capture + s.emission_reg) / 230) ∧
      (X_future s m y).o3 = m.o3 * (1 - s.green_area / 200)) ∧
    pm25Mult exampleScenario = 65 / 100 ∧
    (∀ y : Fin 6, (X_future exampleScenario exampleMeans y).pm25 = 65 / 2) := by
  refine ⟨fun s m y => ⟨rfl, rfl, rfl, rfl, rfl, rfl⟩, ?_, fun y => ?_⟩
  · norm_num [pm25Mult, exampleScenario]
  · norm_num [X_future, X_base, pm25Mult, exampleScenario, exampleMeans]

/-- C2: evaluation at the failing input: with every parameter inside
[0,100] (ev = 100, reg = 100, green = 0, capture = 0) the code's NO2
multiplier is `1 - 200/180 = -1/9 < 0`, and the projected NO2
concentration of the worked mean vector is `-10/3 < 0`: the source applies
no non-negative clamp to the scenario multipliers. -/
theorem C2_no2_negative_unclamped :
    no2Mult ⟨100, 100, 0, 0⟩ = -(1 / 9) ∧
    no2Mult ⟨100, 100, 0, 0⟩ < 0 ∧
    (X_future ⟨100, 100, 0, 0⟩ exampleMeans 0).no2 = -(10 / 3) := by
  norm_num [no2Mult, X_future, X_base, exampleMeans]

/-- C3: the damping factor at 0-based year index `i` equals
`1 - 0.15 * i / 5`, the sequence is exactly
`[1.0, 0.97, 0.94, 0.91, 0.88, 0.85]`, and it is non-increasing. -/
theorem C3_damping_factors :
    (∀ i : Fin 6, dampingFactors i = 1 - 15 / 100 * ((i : ℕ) : ℚ) / 5) ∧
    List.ofFn dampingFactors = [1, 97/100, 94/100, 91/100, 88/100, 85/100] ∧
    Antitone dampingFactors := by
  refine ⟨fun i => ?_, ?_, dampingFactors_antitone⟩
  · rw [dampingFactors_closed_form]; ring
  · simp [List.ofFn_succ]
    refine ⟨?_, ?_, ?_, ?_, ?_, ?_⟩ <;> norm_num [dampingFactors, linspace]

set_option linter.unnecessarySeqFocus false in
/-- C4: `classify` sends a value to LOW iff it is below 50, to MODERATE
iff it is in [50, 100), and to HIGH iff it is at least 100; the bands
agree with the map marker colours green/orange/red, and the boundary
values 50 and 100 fall in the band closed below at them. -/
theorem C4_classify_bands :
    (∀ x : ℚ,
      (classify x = .LOW ↔ x < 50) ∧
      (classify x = .MODERATE ↔ 50 ≤ x ∧ x < 100) ∧
      (classify x = .HIGH ↔ 100 ≤ x) ∧
      (markerColor x = "green" ↔ classify x = .LOW) ∧
      (markerColor x = "orange" ↔ classify x = .MODERATE) ∧
      (markerColor x = "red" ↔ classify x = .HIGH)) ∧
    classify 50 = .MODERATE ∧ classify 100 = .HIGH := by
  refine ⟨fun x => ?_, by norm_num [classify], by norm_num [classify]⟩
  unfold classify markerColor
  split_ifs with h1 h2 <;>
    refine ⟨?_, ?_, ?_, ?_, ?_, ?_⟩ <;> simp_all <;> linarith

/-- C5: the `avg_aqi` field of every produced station record equals the
arithmetic mean (sum over 6) of its 6 damped prediction points. -/
theorem C5_avg_aqi_mean (predict : Features → ℚ) (s : Scenario)
    (station : String) (sub : List Reading) :
    (mkResult predict s station sub).predictions.length = 6 ∧
    (mkResult predict s station sub).avg_aqi =
      (mkResult predict s station sub).predictions.sum / 6 := by
  constructor
  · simp [mkResult]
  · simp [mkResult, np_mean]

/-- C6: the projected feature matrix has six identical rows — the
scenario multiplier depends on the scenario only, never on the year. -/
theorem C6_year_independent (s : Scenario) (m : Features) (y y' : Fin 6) :
    X_future s m y = X_future s m y' := rfl

/-- C7: at the neutral scenario (0,0,0,0) all six multipliers equal 1 and
the projection returns the historical mean vector unchanged. -/
theorem C7_neutral_identity :
    pm25Mult ⟨0, 0, 0, 0⟩ = 1 ∧ pm10Mult ⟨0, 0, 0, 0⟩ = 1 ∧
    coMult ⟨0, 0, 0, 0⟩ = 1 ∧ no2Mult ⟨0, 0, 0, 0⟩ = 1 ∧
    so2Mult ⟨0, 0, 0, 0⟩ = 1 ∧ o3Mult ⟨0, 0, 0, 0⟩ = 1 ∧
    ∀ (m : Features) (y : Fin 6), X_future ⟨0, 0, 0, 0⟩ m y = m := by
  refine ⟨?_, ?_, ?_, ?_, ?_, ?_, fun m y => ?_⟩
  · norm_num [pm25Mult]
  · norm_num [pm10Mult]
  · norm_num [coMult]
  · norm_num [no2Mult]
  · norm_num [so2Mult]
  · norm_num [o3Mult]
  · simp [X_future, X_base, pm25Mult, pm10Mult, coMult, no2Mult, so2Mult, o3Mult]

/-- A station that appears in the table has a non-empty sub-table. -/
theorem subFor_ne_nil_of_mem (df : List Reading) (st : String)
    (h : st ∈ df.map Reading.stasiun) : subFor df st ≠ [] := by
  rcases List.mem_map.mp h with ⟨r, hr, hst⟩
  intro hnil
  have hmem : r ∈ subFor df st := List.mem_filter.mpr ⟨hr, by simp [hst]⟩
  simp [hnil] at hmem

/-- The warning branch of the loop never runs: the loop iterates only over
stations that appear in the table, and for those the sub-table is never
empty. -/
theorem warnings_eq_nil (df : List Reading) : warnings df = [] := by
  rw [warnings, List.filter_eq_nil_iff]
  intro st hst
  have h1 : st ∈ df.map Reading.stasiun := (mem_unique _ _).mp hst
  have h2 := subFor_ne_nil_of_mem df st h1
  simpa [List.isEmpty_iff] using h2

/-- C8 counterexample: on the one-row table containing only a DKI1
reading, station DKI2 has zero historical readings, the warning list is
empty (no NoHistoricalData signal is surfaced — the drop is silent), and
the result set consists exactly of DKI1's forecast. -/
theorem C8_counterexample :
    subFor [exampleReading] "DKI2 (Kelapa Gading)" = [] ∧
    warnings [exampleReading] = [] ∧
    results examplePredict exampleScenario [exampleReading] =
      [mkResult examplePredict exampleScenario "DKI1 (Bunderan HI)"
        [exampleReading]] :=
  ⟨rfl, rfl, rfl⟩

/-- C8 amended: a station with zero historical readings is excluded from
the result set, but silently — since the loop iterates only over stations
appearing in the table, the NoHistoricalData warning branch never fires
for any input — and the other stations' forecasts are exactly those
computed from the table with the empty station's (zero) rows removed. -/
theorem C8_empty_station_silent (predict : Features → ℚ) (s : Scenario)
    (df : List Reading) (st : String) (h : subFor df st = []) :
    (∀ r ∈ results predict s df, r.stasiun ≠ st) ∧
    warnings df = [] ∧
    results predict s (df.filter (fun r => r.stasiun ≠ st)) =
      results predict s df := by
  have hall : ∀ r ∈ df, r.stasiun ≠ st := by
    intro r hr hcontra
    have hmem : r ∈ subFor df st := List.mem_filter.mpr ⟨hr, by simp [hcontra]⟩
    simp [h] at hmem
  refine ⟨?_, warnings_eq_nil df, ?_⟩
  · intro r hr hcontra
    rw [results, List.mem_filterMap] at hr
    rcases hr with ⟨st', hst', hsome⟩
    by_cases he : (subFor df st').isEmpty
    · simp [he] at hsome
    · rw [if_neg he] at hsome
      have hr' : r.stasiun = st' := by
        rw [← Option.some_inj.mp hsome]; rfl
      have : st' = st := hr' ▸ hcontra
      rw [this] at he
      simp [h] at he
  · have hfix : df.filter (fun r => r.stasiun ≠ st) = df := by
      rw [List.filter_eq_self]
      intro r hr
      simpa using hall r hr
    rw [hfix]

/-- C8 witness: the amended theorem evaluated on the one-row DKI1 table
with DKI2 as the station with zero readings. -/
theorem C8_empty_station_silent_witness :
    warnings [exampleReading] = [] ∧
    results examplePredict exampleScenario
        ([exampleReading].filter
          (fun r => r.stasiun ≠ "DKI2 (Kelapa Gading)")) =
      results examplePredict exampleScenario [exampleReading] :=
  (C8_empty_station_silent examplePredict exampleScenario [exampleReading]
    "DKI2 (Kelapa Gading)" (by decide)).2

/-- C9: the run is rejected with `InvalidScenario` exactly when some
parameter lies outside [0,100]; with all four parameters in bounds the run
succeeds with the station results and no `InvalidScenario` failure. -/
theorem C9_invalid_scenario (predict : Features → ℚ) (s : Scenario)
    (df : List Reading) :
    (scenarioInBounds s = true ↔
      (0 ≤ s.ev_switch ∧ s.ev_switch ≤ 100 ∧
       0 ≤ s.emission_reg ∧ s.emission_reg ≤ 100 ∧
       0 ≤ s.green_area ∧ s.green_area ≤ 100 ∧
       0 ≤ s.carbon_capture ∧ s.carbon_capture ≤ 100)) ∧
    (scenarioInBounds s = false →
      runForecast predict s df = .error .invalidScenario) ∧
    (scenarioInBounds s = true →
      runForecast predict s df = .ok (results predict s df)) := by
  refine ⟨?_, ?_, ?_⟩
  · simp [scenarioInBounds, and_assoc]
  · intro h; simp [runForecast, h]
  · intro h; simp [runForecast, h]

/-- C9 witness: an out-of-bounds scenario (ev = 150) is rejected whole,
and the worked in-bounds scenario produces the station results. -/
theorem C9_invalid_scenario_witness :
    runForecast examplePredict ⟨150, 0, 0, 0⟩ [exampleReading] =
      .error .invalidScenario ∧
    runForecast examplePredict exampleScenario [exampleReading] =
      .ok (results examplePredict exampleScenario [exampleReading]) :=
  ⟨(C9_invalid_scenario examplePredict ⟨150, 0, 0, 0⟩ [exampleReading]).2.1
      (by decide),
   (C9_invalid_scenario examplePredict exampleScenario [exampleReading]).2.2
      (by decide)⟩

/-- C10: because the six projected rows are identical, the six raw
predictions of any (deterministic) regressor coincide; when the common
base prediction is non-negative, the damped 6-point trajectory is
non-increasing in the year. -/
theorem C10_trajectory_nonincreasing (predict : Features → ℚ) (s : Scenario)
    (m : Features) (h : 0 ≤ predict (X_future s m 0)) :
    (∀ y y' : Fin 6, base_pred predict s m y = base_pred predict s m y') ∧
    Antitone (adjusted_pred predict s m) := by
  refine ⟨fun y y' => rfl, ?_⟩
  intro a b hab
  have hd : dampingFactors b ≤ dampingFactors a := dampingFactors_antitone hab
  have ha : adjusted_pred predict s m a =
      predict (X_future s m 0) * dampingFactors a := rfl
  have hb : adjusted_pred predict s m b =
      predict (X_future s m 0) * dampingFactors b := rfl
  rw [ha, hb]
  exact mul_le_mul_of_nonneg_left hd h

/-- C10 witness: with the pm25-projection regressor, the worked scenario
and mean vector give base prediction 32.5 at least 0, and the trajectory
is non-increasing. -/
theorem C10_trajectory_nonincreasing_witness :
    0 ≤ examplePredict (X_future exampleScenario exampleMeans 0) ∧
    Antitone (adjusted_pred examplePredict exampleScenario exampleMeans) :=
  ⟨by norm_num [examplePredict, X_future, X_base, pm25Mult, exampleScenario,
      exampleMeans],
   (C10_trajectory_nonincreasing examplePredict exampleScenario exampleMeans
      (by norm_num [examplePredict, X_future, X_base, pm25Mult,
        exampleScenario, exampleMeans])).2⟩
